import Mathlib

/-!
Shallow embedding of `gclient_eval.py` (depot_tools): a sandboxed evaluator for
a restricted manifest language, written against a parsed Python-2 AST.

The embedding follows the source function by function:
  * `Value`                    — the data shapes the evaluator produces,
  * `_gclient_eval` / `_convert` — expression evaluation (lines 107-177),
  * `_gclient_exec` / `_visit_in_module` — statement execution (lines 180-227),
  * `compare` / `Check`        — the consistency checker (lines 239-277),
  * `validateScope`            — the schema check (`_GCLIENT_SCHEMA.validate`);
    the `schema` library itself lives in `third_party/` (outside `src/`), so
    its semantics is modelled from the specification, see its doc comment.

Python exceptions are modelled by `Except` with an explicit error inductive
(`Err`); a Python dict is modelled as an insertion-ordered association list
with `dictInsert` replacing an existing key in place, exactly as a Python
dict assignment does.
-/

namespace GclientEval

/-- Runtime values of the manifest language: Python `None`, `bool`, `str`,
`int`, `list`, `tuple` and `dict` (insertion-ordered). The evaluator itself
produces no `int` from literals (there is no number branch in `_convert`),
but caller-supplied function tables, expected scopes and schema inputs may
hold any of these shapes. -/
inductive Value where
  | null
  | bool (b : Bool)
  | str (s : String)
  | int (n : Int)
  | list (elts : List Value)
  | tuple (elts : List Value)
  | dict (pairs : List (Value × Value))

mutual

/-- Structural equality on values. This models Python `==` on the fragment the
verified claims exercise; Python additionally equates `True` with `1` and
compares dicts ignoring insertion order, which no claim distinguishes. -/
def Value.beq : Value → Value → Bool
  | .null, .null => true
  | .bool a, .bool b => a == b
  | .str a, .str b => a == b
  | .int a, .int b => a == b
  | .list a, .list b => Value.beqList a b
  | .tuple a, .tuple b => Value.beqList a b
  | .dict a, .dict b => Value.beqPairs a b
  | _, _ => false

/-- Pointwise equality of value lists. -/
def Value.beqList : List Value → List Value → Bool
  | [], [] => true
  | a :: as, b :: bs => Value.beq a b && Value.beqList as bs
  | _, _ => false

/-- Pointwise equality of key/value pair lists. -/
def Value.beqPairs : List (Value × Value) → List (Value × Value) → Bool
  | [], [] => true
  | (k, v) :: as, (k2, v2) :: bs =>
      Value.beq k k2 && Value.beq v v2 && Value.beqPairs as bs
  | _, _ => false

end

instance : BEq Value := ⟨Value.beq⟩

/-- An environment (the source's `vars_dict`): an insertion-ordered mapping
from key values to values, as a Python dict. -/
abbrev Env := List (Value × Value)

/-- Python dict assignment `d[k] = v`: replaces the value of an existing key
in place (keeping its position), otherwise appends the new pair. -/
def dictInsert (d : Env) (k v : Value) : Env :=
  match d with
  | [] => [(k, v)]
  | (k2, v2) :: rest =>
      if k2 == k then (k, v) :: rest else (k2, v2) :: dictInsert rest k v

/-- Python dict lookup `d[k]` / `k in d`. -/
def dictLookup (d : Env) (k : Value) : Option Value :=
  match d with
  | [] => Option.none
  | (k2, v2) :: rest => if k2 == k then some v2 else dictLookup rest k

/-- Line 119: `vars_dict.update(_allowed_names)` where
`_allowed_names = {'None': None, 'True': True, 'False': False}` (line 110);
performed on entry of every `_convert` call, after the defensive deep copy
(which is the identity in this pure model). -/
def updAllowed (env : Env) : Env :=
  dictInsert
    (dictInsert (dictInsert env (.str "None") .null) (.str "True") (.bool true))
    (.str "False") (.bool false)

/-- Python truthiness (`bool(x)`), as used by `or` / `and` / `not`. -/
def pyTruthy : Value → Bool
  | .null => false
  | .bool b => b
  | .str s => s ≠ ""
  | .int n => n ≠ 0
  | .list l => !l.isEmpty
  | .tuple l => !l.isEmpty
  | .dict d => !d.isEmpty

/-- Numeric view used by Python arithmetic: ints are themselves and bools
coerce (`True` is `1`). -/
def toIntQ : Value → Option Int
  | .int n => some n
  | .bool b => some (if b then 1 else 0)
  | _ => Option.none

/-- Errors of the evaluator subsystem. The first group are the `ValueError`s
raised explicitly by the source with a filename and a line; the second group
are the bare Python exceptions that escape it (`KeyError` from
`global_scope[...]` on line 153, `TypeError` / `ZeroDivisionError` from `+`
and `%` on lines 155 and 157), which carry no filename or line. -/
inductive Err where
  | invalidName (id : String) (avail : Env) (filename : String) (line : Nat)
  | invalidCallNotName (filename : String) (line : Nat)
  | invalidCallArgs (filename : String) (line : Nat)
  | invalidOrArity (filename : String) (line : Nat)
  | invalidAndArity (filename : String) (line : Nat)
  | unexpectedNode (filename : String) (line : Nat)
  | invalidAssignMulti (filename : String) (line : Nat)
  | invalidAssignTarget (filename : String) (line : Nat)
  | assignOverride (id : String) (filename : String) (line : Nat)
  | keyError (key : String)
  | typeError
  | zeroDivisionError

/-- The filename and source line an error carries, when it carries them:
every `ValueError` the source raises embeds both, while the bare `KeyError`,
`TypeError` and `ZeroDivisionError` escaping the evaluator embed neither. -/
def Err.filenameAndLine : Err → Option (String × Nat)
  | .invalidName _ _ f l => some (f, l)
  | .invalidCallNotName f l => some (f, l)
  | .invalidCallArgs f l => some (f, l)
  | .invalidOrArity f l => some (f, l)
  | .invalidAndArity f l => some (f, l)
  | .unexpectedNode f l => some (f, l)
  | .invalidAssignMulti f l => some (f, l)
  | .invalidAssignTarget f l => some (f, l)
  | .assignOverride _ f l => some (f, l)
  | .keyError _ => Option.none
  | .typeError => Option.none
  | .zeroDivisionError => Option.none

/-- Python `+` (line 155): string, list and tuple concatenation, or numeric
addition (with bool coercing to int); any other combination raises a bare
`TypeError`. -/
def pyAdd : Value → Value → Except Err Value
  | .str a, .str b => .ok (.str (a ++ b))
  | .list a, .list b => .ok (.list (a ++ b))
  | .tuple a, .tuple b => .ok (.tuple (a ++ b))
  | a, b =>
      match toIntQ a, toIntQ b with
      | some x, some y => .ok (.int (x + y))
      | _, _ => .error .typeError

/-- Python `%` (line 157) on the numeric fragment: floor modulo with bool
coercion, `ZeroDivisionError` on a zero divisor. Python additionally supports
`%` as printf-style string formatting when the left operand is a string; no
verified claim exercises it and it is not modelled (a string left operand
falls to the `TypeError` arm here). -/
def pyMod : Value → Value → Except Err Value
  | a, b =>
      match toIntQ a, toIntQ b with
      | some x, some y =>
          if y = 0 then .error .zeroDivisionError else .ok (.int (Int.fmod x y))
      | _, _ => .error .typeError

/-- Binary operator of an `ast.BinOp` node. Only `Add` and `Mod` have
branches in `_convert`; `sub` stands for any other operator, which falls to
the unexpected-node failure. -/
inductive BinK where
  | add
  | mod
  | sub

/-- Operator of an `ast.BoolOp` node. -/
inductive BoolK where
  | orOp
  | andOp

/-- Operator of an `ast.UnaryOp` node. Only `Not` has a branch in `_convert`;
`uSub` stands for any other operator, which falls to the unexpected-node
failure. -/
inductive UnK where
  | notOp
  | uSub

/-- Expression nodes of the parsed manifest (the Python-2 `ast` shapes
`_convert` inspects). Each node carries its source line (`node.lineno`).
`num` stands for any node kind without a branch in `_convert` (a number
literal, a lambda, a comprehension, a subscript, ...): all of them fall to
the final unexpected-node failure. In Python 2 the constants `None`, `True`
and `False` parse as plain `ast.Name` nodes, which is why they need no
constructor of their own. -/
inductive Expr where
  | str (line : Nat) (s : String)
  | tuple (line : Nat) (elts : List Expr)
  | list (line : Nat) (elts : List Expr)
  | dict (line : Nat) (pairs : List (Expr × Expr))
  | name (line : Nat) (id : String)
  | call (line : Nat) (func : Expr) (args : List Expr)
      (keywords : List (String × Expr)) (starargs : Option Expr)
      (kwargs : Option Expr)
  | binOp (line : Nat) (op : BinK) (left : Expr) (right : Expr)
  | boolOp (line : Nat) (op : BoolK) (values : List Expr)
  | unaryOp (line : Nat) (op : UnK) (operand : Expr)
  | num (line : Nat) (n : Int)

/-- The source line of a node (`node.lineno`). -/
def Expr.line : Expr → Nat
  | .str l _ => l
  | .tuple l _ => l
  | .list l _ => l
  | .dict l _ => l
  | .name l _ => l
  | .call l _ _ _ _ _ => l
  | .binOp l _ _ _ => l
  | .boolOp l _ _ => l
  | .unaryOp l _ _ => l
  | .num l _ => l

/-- The caller-supplied whitelist of callables (`global_scope`), keyed by
name. The source looks up `global_scope[node.func.id]`, a bare `KeyError`
when absent. -/
abbrev FuncTable := List (String × (List Value → Value))

/-- Dict lookup in the function table. -/
def ftLookup (gs : FuncTable) (id : String) : Option (List Value → Value) :=
  match gs with
  | [] => Option.none
  | (k, f) :: rest => if k == id then some f else ftLookup rest id

mutual

/-- The inner `_convert` of `_gclient_eval` (lines 115-176). On entry the
environment is defensively copied and the three fixed constants are merged in
(lines 116-119); recursive descent passes the updated copy down
(`vars_convert`, line 120), and immutability of `Env` plays the role of the
source's `copy.deepcopy`. -/
def _convert (gs : FuncTable) (fname : String) (expose : Bool)
    (node : Expr) (varsDict : Env) : Except Err Value :=
  let vd := updAllowed varsDict
  match node with
  | .str _ s => .ok (.str s)
  | .tuple _ elts =>
      match _convertList gs fname expose elts vd with
      | .ok vs => .ok (.tuple vs)
      | .error e => .error e
  | .list _ elts =>
      match _convertList gs fname expose elts vd with
      | .ok vs => .ok (.list vs)
      | .error e => .error e
  | .dict _ pairs =>
      match _convertPairs gs fname expose pairs vd [] with
      | .ok result => .ok (.dict result)
      | .error e => .error e
  | .name ln id =>
      match dictLookup vd (.str id) with
      | Option.none => .error (.invalidName id vd fname ln)
      | some v => .ok v
  | .call ln func args keywords starargs kwargs =>
      match func with
      | .name _ fid =>
          if !keywords.isEmpty || starargs.isSome || kwargs.isSome then
            .error (.invalidCallArgs fname ln)
          else
            match _convertList gs fname expose args vd with
            | .error e => .error e
            | .ok avs =>
                match ftLookup gs fid with
                | Option.none => .error (.keyError fid)
                | some f => .ok (f avs)
      | _ => .error (.invalidCallNotName fname ln)
  | .binOp ln op left right =>
      match op with
      | .add =>
          match _convert gs fname expose left vd with
          | .error e => .error e
          | .ok lv =>
              match _convert gs fname expose right vd with
              | .error e => .error e
              | .ok rv => pyAdd lv rv
      | .mod =>
          match _convert gs fname expose left vd with
          | .error e => .error e
          | .ok lv =>
              match _convert gs fname expose right vd with
              | .error e => .error e
              | .ok rv => pyMod lv rv
      | .sub => .error (.unexpectedNode fname ln)
  | .boolOp ln op values =>
      match op with
      | .orOp =>
          match values with
          | [a, b] =>
              match _convert gs fname expose a vd with
              | .error e => .error e
              | .ok av =>
                  if pyTruthy av then .ok av else _convert gs fname expose b vd
          | _ => .error (.invalidOrArity fname ln)
      | .andOp =>
          match values with
          | [a, b] =>
              match _convert gs fname expose a vd with
              | .error e => .error e
              | .ok av =>
                  if pyTruthy av then _convert gs fname expose b vd else .ok av
          | _ => .error (.invalidAndArity fname ln)
  | .unaryOp ln op operand =>
      match op with
      | .notOp =>
          match _convert gs fname expose operand vd with
          | .error e => .error e
          | .ok v => .ok (.bool (!pyTruthy v))
      | .uSub => .error (.unexpectedNode fname ln)
  | .num ln _ => .error (.unexpectedNode fname ln)

/-- Eager left-to-right evaluation of a node list (`map(vars_convert, ...)`
on lines 124, 126 and 152; Python-2 `map` is eager, so argument evaluation
precedes the function-table lookup). -/
def _convertList (gs : FuncTable) (fname : String) (expose : Bool)
    (nodes : List Expr) (vd : Env) : Except Err (List Value) :=
  match nodes with
  | [] => .ok []
  | e :: rest =>
      match _convert gs fname expose e vd with
      | .error err => .error err
      | .ok v =>
          match _convertList gs fname expose rest vd with
          | .error err => .error err
          | .ok vs => .ok (v :: vs)

/-- The dict-literal loop (lines 128-135): each key and value is evaluated in
the current environment; when `expose` is set the evaluated pair is then
added to the environment used for the remaining pairs (line 133), and in
every case it is added to the result dict (line 134). -/
def _convertPairs (gs : FuncTable) (fname : String) (expose : Bool)
    (pairs : List (Expr × Expr)) (vd : Env) (result : Env) :
    Except Err Env :=
  match pairs with
  | [] => .ok result
  | (k, v) :: rest =>
      match _convert gs fname expose k vd with
      | .error err => .error err
      | .ok ck =>
          match _convert gs fname expose v vd with
          | .error err => .error err
          | .ok cv =>
              _convertPairs gs fname expose rest
                (if expose then dictInsert vd ck cv else vd)
                (dictInsert result ck cv)

end

/-- `_gclient_eval` (lines 107-177) on an already-parsed expression node: the
string-parsing and `ast.Expression`-unwrapping preamble feeds `_convert` with
an empty environment (`vars_dict=None`, treated as `{}` on lines 116-117). -/
def _gclient_eval (gs : FuncTable) (fname : String) (expose : Bool)
    (node : Expr) : Except Err Value :=
  _convert gs fname expose node []

/-- Assignment target of an `ast.Assign`. Only a bare `ast.Name` is accepted
(line 196); `attrTgt`, `subscriptTgt` and `tupleTgt` stand for attribute,
subscript and destructuring targets, all rejected. -/
inductive Target where
  | name (line : Nat) (id : String)
  | attrTgt (line : Nat)
  | subscriptTgt (line : Nat)
  | tupleTgt (line : Nat)

/-- Top-level statement nodes. Only `ast.Assign` has a branch in
`_visit_in_module` (line 190); the other constructors stand for the statement
kinds a module can otherwise hold (an expression statement, a conditional, a
loop, a function or class definition), all of which fall to the
unexpected-node failure (lines 210-214). -/
inductive Stmt where
  | assign (line : Nat) (targets : List Target) (value : Expr)
  | exprStmt (line : Nat) (e : Expr)
  | ifStmt (line : Nat)
  | forStmt (line : Nat)
  | funcDef (line : Nat) (id : String)
  | classDef (line : Nat) (id : String)

/-- The source line of a statement. -/
def Stmt.line : Stmt → Nat
  | .assign l _ _ => l
  | .exprStmt l _ => l
  | .ifStmt l => l
  | .forStmt l => l
  | .funcDef l _ => l
  | .classDef l _ => l

/-- A scope being built: the insertion-ordered `result_scope` dict, keyed by
identifier. Its keys stay distinct because a duplicate assignment is rejected
before insertion. -/
abbrev Scope := List (String × Value)

/-- Membership test `target.id in result_scope` (line 204). -/
def scopeHas (scope : Scope) (id : String) : Bool :=
  scope.any (fun p => p.1 == id)

/-- `_visit_in_module` (lines 189-214), processing one statement against the
scope built so far: exactly one target (line 191), which must be a bare name
(line 196); the value is evaluated with self-reference exposure exactly when
the target is the reserved name `vars` (line 202); a name already bound in
the scope is a failure (line 204), raised only after the value evaluated. -/
def _visit_in_module (gs : FuncTable) (fname : String) (scope : Scope)
    (stmt : Stmt) : Except Err Scope :=
  match stmt with
  | .assign ln targets value =>
      match targets with
      | [target] =>
          match target with
          | .name _ id =>
              match _gclient_eval gs fname (id == "vars") value with
              | .error e => .error e
              | .ok v =>
                  if scopeHas scope id then
                    .error (.assignOverride id fname ln)
                  else
                    .ok (scope ++ [(id, v)])
          | _ => .error (.invalidAssignTarget fname ln)
      | _ => .error (.invalidAssignMulti fname ln)
  | other => .error (.unexpectedNode fname other.line)

/-- Top-level node handed to `_gclient_exec`: a parsed `ast.Module`, an
`ast.Expression` wrapper (unwrapped to its body on lines 186-187 and then
rejected as not a module), or a bare expression node. -/
inductive ExecInput where
  | module (body : List Stmt)
  | expression (body : Expr)
  | exprTop (e : Expr)

/-- `_gclient_exec` (lines 180-227): folds `_visit_in_module` over the body
of a module, starting from the empty scope; any non-module input is an
unexpected-node failure. -/
def _gclient_exec (gs : FuncTable) (fname : String) :
    ExecInput → Except Err Scope
  | .module body => body.foldlM (_visit_in_module gs fname) []
  | .expression e => .error (.unexpectedNode fname e.line)
  | .exprTop e => .error (.unexpectedNode fname e.line)

mutual

/-- Python `repr`, as far as the checker's path strings need it (string
escaping inside `repr` of a string is simplified to plain quoting). -/
def pyReprV : Value → String
  | .null => "None"
  | .bool b => if b then "True" else "False"
  | .str s => "\x27" ++ s ++ "\x27"
  | .int n => toString n
  | .list l => "[" ++ pyReprList l ++ "]"
  | .tuple l =>
      match l with
      | [] => "()"
      | [x] => "(" ++ pyReprV x ++ ",)"
      | x :: y :: rest => "(" ++ pyReprList (x :: y :: rest) ++ ")"
  | .dict d => "\x7b" ++ pyReprPairs d ++ "\x7d"

/-- Comma-separated reprs of a value list. -/
def pyReprList : List Value → String
  | [] => ""
  | [x] => pyReprV x
  | x :: rest => pyReprV x ++ ", " ++ pyReprList rest

/-- Comma-separated `key: value` reprs of a pair list. -/
def pyReprPairs : List (Value × Value) → String
  | [] => ""
  | [(k, v)] => pyReprV k ++ ": " ++ pyReprV v
  | (k, v) :: rest => pyReprV k ++ ": " ++ pyReprV v ++ ", " ++ pyReprPairs rest

end

/-- Python `str` / `'%s' % v`: a string renders bare, everything else as its
repr. Used to build the checker's path strings (`'["%s"]' % k`, line 260). -/
def pyStrV : Value → String
  | .str s => s
  | v => pyReprV v

/-- Python `len`, where defined. -/
def pyLen : Value → Option Nat
  | .str s => some s.length
  | .list l => some l.length
  | .tuple l => some l.length
  | .dict d => some d.length
  | _ => Option.none

/-- Python indexing `v[i]` by a non-negative int, where defined: sequence
indexing for lists and tuples, a one-character string for strings, an
int-keyed dict lookup for dicts. -/
def pyIndex : Value → Nat → Option Value
  | .list l, i => l.get? i
  | .tuple l, i => l.get? i
  | .str s, i => (s.toList.get? i).map (fun c => .str (String.mk [c]))
  | .dict d, i => dictLookup d (.int (Int.ofNat i))
  | _, _ => Option.none

/-- One of the two objects a `CheckFailure` names: a plain value, or the set
of keys of a dict (line 255-256 compares `set(expected.keys())` with
`set(actual.keys())` and passes both sets to `fail`). The key set is carried
as the underlying key list; the comparison that produced it ignored order
and multiplicity. -/
inductive CFItem where
  | value (v : Value)
  | keySet (ks : List Value)

/-- Failures of `Check` (lines 230-277). `checkFailure` carries the `path`,
`exp` and `act` fields of the `CheckFailure` exception (its message string
renders the same three pieces of data and is not modelled separately);
`pyError` stands for a bare Python exception escaping `compare` when the two
scopes disagree in shape outside `CheckFailure`'s reach (for example
`actual.keys()` on a non-dict); `execError` wraps a failure of
`_gclient_exec`; `schemaError` a failure of the final schema validation. -/
inductive CheckErr where
  | checkFailure (path : String) (exp : CFItem) (act : CFItem)
  | pyError
  | execError (e : Err)
  | schemaError

/-- Set equality of two key lists (`set(exp) != set(act)`). -/
def keySetEq (a b : List Value) : Bool :=
  a.all (fun k => b.any (fun k2 => k2 == k)) &&
    b.all (fun k => a.any (fun k2 => k2 == k))

mutual

/-- The recursive `compare` closure of `Check` (lines 253-271), with the
enclosing `expected_scope` and threaded `actual_scope` as explicit fixed
arguments. A dict expectation compares key sets and recurses per key
(naming the two key sets on mismatch); a list expectation compares lengths
and recurses per index, naming the two WHOLE scopes on length mismatch under
a `len(...)` path; anything else is compared directly, naming the two whole
scopes on mismatch. -/
def compare (expScope actScope : Value) (expected actual : Value)
    (varPath : String) : Except CheckErr Unit :=
  match expected with
  | .dict ed =>
      match actual with
      | .dict ad =>
          if keySetEq (ed.map Prod.fst) (ad.map Prod.fst) then
            comparePairs expScope actScope ed ad varPath
          else
            .error (.checkFailure varPath (.keySet (ed.map Prod.fst))
              (.keySet (ad.map Prod.fst)))
      | _ => .error .pyError
  | .list el =>
      match pyLen actual with
      | Option.none => .error .pyError
      | some alen =>
          if el.length = alen then
            compareElems expScope actScope el actual 0 varPath
          else
            .error (.checkFailure ("len(" ++ varPath ++ ")")
              (.value expScope) (.value actScope))
  | other =>
      if other == actual then .ok ()
      else .error (.checkFailure varPath (.value expScope) (.value actScope))

/-- The `for k in expected` loop of the dict branch (lines 259-260), walking
the expected pairs in insertion order and looking each key up in the actual
dict. -/
def comparePairs (expScope actScope : Value) (ed : List (Value × Value))
    (ad : List (Value × Value)) (varPath : String) : Except CheckErr Unit :=
  match ed with
  | [] => .ok ()
  | (k, v) :: rest =>
      match dictLookup ad k with
      | Option.none => .error .pyError
      | some av =>
          match compare expScope actScope v av
              (varPath ++ "[\"" ++ pyStrV k ++ "\"]") with
          | .error e => .error e
          | .ok _ => comparePairs expScope actScope rest ad varPath

/-- The `for i in range(exp)` loop of the list branch (lines 267-268),
walking the expected elements by index. -/
def compareElems (expScope actScope : Value) (el : List Value)
    (actual : Value) (i : Nat) (varPath : String) : Except CheckErr Unit :=
  match el with
  | [] => .ok ()
  | e :: rest =>
      match pyIndex actual i with
      | Option.none => .error .pyError
      | some av =>
          match compare expScope actScope e av
              (varPath ++ "[" ++ toString i ++ "]") with
          | .error err => .error err
          | .ok _ => compareElems expScope actScope rest actual (i + 1) varPath

end

/-- A produced scope viewed as a dict value, as `compare` receives it. -/
def scopeToValue (scope : Scope) : Value :=
  .dict (scope.map (fun p => (.str p.1, p.2)))

/-- Is this value a string? (`basestring` in the schema). -/
def isStr : Value → Bool
  | .str _ => true
  | _ => false

/-- A list of strings (`[basestring]`-shaped schema entries). -/
def isListOfStr : Value → Bool
  | .list l => l.all isStr
  | _ => false

/-- A `deps` entry: a string, or a dict holding exactly a string `url`. -/
def isDepsVal : Value → Bool
  | .str _ => true
  | .dict [(k, v)] => k == Value.str "url" && isStr v
  | _ => false

/-- A hook descriptor: a dict with a required `action` (list of strings) and
optional `name` / `pattern` strings, and no other keys. -/
def isHook : Value → Bool
  | .dict d =>
      d.any (fun p => p.1 == Value.str "action") &&
        d.all (fun p =>
          (p.1 == Value.str "action" && isListOfStr p.2) ||
            (p.1 == Value.str "name" && isStr p.2) ||
            (p.1 == Value.str "pattern" && isStr p.2))
  | _ => false

/-- A list of hook descriptors (`_GCLIENT_HOOKS_SCHEMA`). -/
def isHooks : Value → Bool
  | .list l => l.all isHook
  | _ => false

/-- A `recursedeps` entry: a string, or a two-element pair (tuple or list) of
strings. -/
def isRecurseEntry : Value → Bool
  | .str _ => true
  | .tuple [a, b] => isStr a && isStr b
  | .list [a, b] => isStr a && isStr b
  | _ => false

/-- A string-keyed dict whose values all satisfy `p`. -/
def isStrDictOf (p : Value → Bool) : Value → Bool
  | .dict d => d.all (fun q => isStr q.1 && p q.2)
  | _ => false

/-- Modelled from the spec: the semantics of `_GCLIENT_SCHEMA.validate`
(line 277). The `_GCLIENT_SCHEMA` declaration itself is in the source (lines
26-104), but the `schema` library interpreting it lives in `third_party/`
outside the sources at hand, so its validation semantics follows the
specification's description of the Schema Validator: a fixed set of optional
top-level keys, each with the required value shape below, with every unknown
top-level key rejected and absence of any key always valid. Acceptance is
modelled as a boolean; the mismatch-path diagnostics of a rejection are not
modelled. -/
def validateScope (scope : Scope) : Bool :=
  scope.all (fun p =>
    match p.1 with
    | "allowed_hosts" => isListOfStr p.2
    | "deps" => isStrDictOf isDepsVal p.2
    | "deps_os" =>
        isStrDictOf
          (isStrDictOf (fun v => isStr v || v == Value.null)) p.2
    | "hooks" => isHooks p.2
    | "hooks_os" => isStrDictOf isHooks p.2
    | "include_rules" => isListOfStr p.2
    | "pre_deps_hooks" => isHooks p.2
    | "recursedeps" =>
        (match p.2 with
         | .list l => l.all isRecurseEntry
         | _ => false)
    | "skip_child_includes" => isListOfStr p.2
    | "specific_include_rules" => isStrDictOf isListOfStr p.2
    | "target_os" => isListOfStr p.2
    | "use_relative_paths" =>
        (match p.2 with
         | .bool _ => true
         | _ => false)
    | "vars" =>
        isStrDictOf (fun v =>
          isStr v ||
            (match v with
             | .bool _ => true
             | _ => false)) p.2
    | _ => false)

/-- `Check` (lines 239-277): executes the manifest, structurally compares the
resulting scope against the expected scope (starting from the empty path),
then validates the result against the manifest schema. -/
def Check (content : ExecInput) (path : String) (gs : FuncTable)
    (expectedScope : Value) : Except CheckErr Unit :=
  match _gclient_exec gs path content with
  | .error e => .error (.execError e)
  | .ok resultScope =>
      match compare expectedScope (scopeToValue resultScope)
          expectedScope (scopeToValue resultScope) "" with
      | .error e => .error e
      | .ok _ =>
          if validateScope resultScope then .ok () else .error .schemaError

/-- The `isinstance(node.func, ast.Name)` test of line 144. -/
def Expr.isNameNode : Expr → Bool
  | .name _ _ => true
  | _ => false

/-- The environment holding exactly the three fixed constants: what
`updAllowed` makes of the empty environment, and hence the environment every
evaluation starts from. -/
def allowedEnv : Env :=
  [(.str "None", .null), (.str "True", .bool true), (.str "False", .bool false)]

/-- The specification example dict literal: the parse of
`\x7b"a": "x", "b": a + "y"\x7d` at line 1. -/
def c1Dict : Expr :=
  .dict 1 [(.str 1 "a", .str 1 "x"),
           (.str 1 "b", .binOp 1 .add (.name 1 "a") (.str 1 "y"))]

/-- A one-statement manifest binding `deps` to a dict mapping `a` to the
given string. -/
def c6Content (v : String) : ExecInput :=
  .module [.assign 1 [Target.name 1 "deps"] (.dict 1 [(.str 1 "a", .str 1 v)])]

/-- The expected scope of the consistency-check example: `deps` maps `a`
to `"1"`. -/
def c6Expected : Value := .dict [(.str "deps", .dict [(.str "a", .str "1")])]

/-- The actual scope the mismatching consistency-check example produces:
`deps` maps `a` to `"2"`. -/
def c6Actual2 : Value := .dict [(.str "deps", .dict [(.str "a", .str "2")])]

/-- A one-statement manifest binding `include_rules` to a one-element list. -/
def c6ListContent : ExecInput :=
  .module [.assign 1 [Target.name 1 "include_rules"] (.list 1 [.str 1 "a"])]

/-- An expected scope whose `include_rules` list has two elements. -/
def c6ListExpected : Value :=
  .dict [(.str "include_rules", .list [.str "a", .str "b"])]

/-- The actual scope `c6ListContent` produces. -/
def c6ListActual : Value := .dict [(.str "include_rules", .list [.str "a"])]

/-- Does this failure item hold exactly the given string value? Used to state
computably that a reported item is not a given leaf string. -/
def CFItem.isStrValue : CFItem → String → Bool
  | .value (.str s), t => s == t
  | _, _ => false

/-! Helper lemmas. -/

theorem beq_str_str (a b : String) :
    (Value.str a == Value.str b) = (a == b) := rfl

theorem eq_str_of_beq_str {c : Value} {a : String}
    (h : (c == Value.str a) = true) : c = Value.str a := by
  cases c <;> simp [instBEqValue, Value.beq] at h
  · exact congrArg Value.str h

/-- Looking a string key up after a string-keyed `dictInsert`: the inserted
key hides the old binding, every other key is untouched. -/
theorem dictLookup_dictInsert_str (init : Env) (a b : String) (v : Value) :
    dictLookup (dictInsert init (.str a) v) (.str b) =
      if a == b then some v else dictLookup init (.str b) := by
  induction init with
  | nil =>
      simp [dictInsert, dictLookup, beq_str_str]
  | cons p rest ih =>
      obtain ⟨c, w⟩ := p
      by_cases hc : (c == Value.str a) = true
      · have hceq : c = Value.str a := eq_str_of_beq_str hc
        subst hceq
        simp only [dictInsert, dictLookup, beq_str_str, hc, if_true]
        by_cases hab : a = b <;> simp [hab]
      · simp only [dictInsert, dictLookup, hc, Bool.false_eq_true, if_false]
        by_cases hab : (a == b) = true
        · have : a = b := eq_of_beq hab
          subst this
          have hcb : (c == Value.str a) = false := by
            simpa using hc
          simp [dictLookup, hcb, ih, hab]
        · simp only [dictLookup, ih, hab, Bool.false_eq_true, if_false]

/-- Folding `dictInsert` over a pair list (the way the dict branch builds its
result) and then looking a key up returns the value of the LAST occurrence of
that key, falling back to the initial dict when the key never occurs. -/
theorem lookup_foldl_dictInsert (ps : List (String × String)) (init : Env)
    (k : String) :
    dictLookup
        (ps.foldl (fun acc p => dictInsert acc (.str p.1) (.str p.2)) init)
        (.str k) =
      match (ps.filter (fun p => p.1 == k)).getLast? with
      | some p => some (.str p.2)
      | Option.none => dictLookup init (.str k) := by
  induction ps generalizing init with
  | nil => simp
  | cons p rest ih =>
      simp only [List.foldl_cons, ih, List.filter_cons]
      by_cases hk : (p.1 == k) = true
      · simp only [hk, if_true]
        cases hrest : (rest.filter (fun p => p.1 == k)).getLast? with
        | none =>
            have hnil : rest.filter (fun p => p.1 == k) = [] := by
              simpa using hrest
            simp [hnil, dictLookup_dictInsert_str, hk]
        | some q =>
            have hne : rest.filter (fun p => p.1 == k) ≠ [] := by
              intro hnil; rw [hnil] at hrest; simp at hrest
            obtain ⟨b, l, hbl⟩ := List.exists_cons_of_ne_nil hne
            simp [hbl, hbl ▸ hrest]
      · simp only [hk, Bool.false_eq_true, if_false]
        cases hrest : (rest.filter (fun p => p.1 == k)).getLast? with
        | none =>
            simp [hrest, dictLookup_dictInsert_str, hk]
        | some q => simp [hrest]

/-- The dict-literal loop on string-literal pairs always succeeds and its
result is the `dictInsert` fold of the pairs over the result accumulator,
whatever the environment and the exposure flag. -/
theorem convertPairs_literal (gs : FuncTable) (fname : String) (expose : Bool)
    (ln : Nat) (ps : List (String × String)) (vd : Env) (res : Env) :
    _convertPairs gs fname expose
        (ps.map (fun p => (Expr.str ln p.1, Expr.str ln p.2))) vd res =
      .ok (ps.foldl (fun acc p => dictInsert acc (.str p.1) (.str p.2)) res) := by
  induction ps generalizing vd res with
  | nil => simp [_convertPairs]
  | cons p rest ih => simp [_convertPairs, _convert, ih]

/-- A dict literal of string literals always evaluates successfully, to the
`dictInsert` fold of its pairs — duplicate keys included. -/
theorem convert_dict_literal (gs : FuncTable) (fname : String) (expose : Bool)
    (ln : Nat) (ps : List (String × String)) (env : Env) :
    _convert gs fname expose
        (.dict ln (ps.map (fun p => (Expr.str ln p.1, Expr.str ln p.2)))) env =
      .ok (.dict
        (ps.foldl (fun acc p => dictInsert acc (.str p.1) (.str p.2)) [])) := by
  simp [_convert, convertPairs_literal]

/-! Claim theorems. -/

/-- Claim C1: executing `vars = ` applied to the dict literal with pairs
`("a", "x")` and `("b", a + "y")` binds `vars` to the dict mapping `a` to
`x` and `b` to `xy` — the later pair saw the earlier binding — while the
same right-hand side assigned to any target other than the reserved name
`vars` fails with a missing-name failure for `a` (over the constants-only
environment), because self-reference exposure is enabled exactly when the
assignment target is `vars`. -/
theorem claim_C1_vars_self_reference :
    _gclient_exec [] "DEPS"
        (.module [.assign 1 [Target.name 1 "vars"] c1Dict]) =
      .ok [("vars", .dict [(.str "a", .str "x"), (.str "b", .str "xy")])] ∧
    ∀ id : String, id ≠ "vars" →
      _gclient_exec [] "DEPS" (.module [.assign 1 [Target.name 1 id] c1Dict]) =
        .error (.invalidName "a" allowedEnv "DEPS" 1) := by
  constructor
  · rfl
  · intro id h
    have hb : (id == "vars") = false := by simpa using h
    simp only [_gclient_exec, List.foldlM, _visit_in_module, hb]
    rfl

/-- Witness for C1: the non-`vars` branch at the concrete target `other`. -/
theorem claim_C1_witness :
    _gclient_exec [] "DEPS"
        (.module [.assign 1 [Target.name 1 "other"] c1Dict]) =
      .error (.invalidName "a" allowedEnv "DEPS" 1) :=
  claim_C1_vars_self_reference.2 "other" (by decide)

/-- Claim C2: dict-literal exposure never leaks outside the dict literal
being evaluated. Generally, under `exposeVars`, the elements after the first
element of a list literal are evaluated in the environment from before that
first element, whatever bindings a dict inside it exposed; concretely, a
list sibling of a dict literal cannot read the dict bindings, a later pair
of an OUTER dict cannot read what an inner dict literal exposed, and a later
top-level statement cannot read what the `vars` assignment exposed. -/
theorem claim_C2_exposure_no_leak :
    (∀ (gs : FuncTable) (fname : String) (ln : Nat) (d : Expr)
        (rest : List Expr) (env : Env),
      _convert gs fname true (.list ln (d :: rest)) env =
        match _convert gs fname true d (updAllowed env) with
        | .error err => .error err
        | .ok dv =>
            match _convertList gs fname true rest (updAllowed env) with
            | .error err => .error err
            | .ok vs => .ok (.list (dv :: vs))) ∧
    _gclient_eval [] "DEPS" true
        (.list 1 [.dict 1 [(.str 1 "a", .str 1 "x")], .name 1 "a"]) =
      .error (.invalidName "a" allowedEnv "DEPS" 1) ∧
    _gclient_eval [] "DEPS" true
        (.dict 1 [(.str 1 "x", .dict 1 [(.str 1 "a", .str 1 "1")]),
                  (.str 1 "b", .name 1 "a")]) =
      .error (.invalidName "a"
        (allowedEnv ++ [(.str "x", .dict [(.str "a", .str "1")])]) "DEPS" 1) ∧
    _gclient_exec [] "DEPS"
        (.module [.assign 1 [Target.name 1 "vars"]
                    (.dict 1 [(.str 1 "a", .str 1 "x")]),
                  .assign 2 [Target.name 2 "b"] (.name 2 "a")]) =
      .error (.invalidName "a" allowedEnv "DEPS" 2) := by
  refine ⟨?_, rfl, rfl, rfl⟩
  intro gs fname ln d rest env
  cases hd : _convert gs fname true d (updAllowed env) with
  | error err => simp [_convert, _convertList, hd]
  | ok dv =>
      cases hrest : _convertList gs fname true rest (updAllowed env) with
      | error err => simp [_convert, _convertList, hd, hrest]
      | ok vs => simp [_convert, _convertList, hd, hrest]

/-- Claim C3: a second assignment to the same top-level identifier fails with
a duplicate-assignment failure naming the identifier, the file and the line
of the second assignment, whenever both right-hand sides themselves evaluate;
since execution aborts with an error, no scope containing the second value is
ever returned. -/
theorem claim_C3_duplicate_assignment (gs : FuncTable) (fname x : String)
    (tl1 tl2 ln1 ln2 : Nat) (e1 e2 : Expr) (v1 v2 : Value)
    (h1 : _gclient_eval gs fname (x == "vars") e1 = .ok v1)
    (h2 : _gclient_eval gs fname (x == "vars") e2 = .ok v2) :
    _gclient_exec gs fname
        (.module [.assign ln1 [Target.name tl1 x] e1,
                  .assign ln2 [Target.name tl2 x] e2]) =
      .error (.assignOverride x fname ln2) := by
  simp [_gclient_exec, List.foldlM, _visit_in_module, h1, h2, scopeHas,
    bind, Except.bind, List.any]

/-- Witness for C3: `x = "1"` followed by `x = "2"` fails with the
duplicate-assignment failure for `x` at line 2, so the scope never holds
`"2"`. -/
theorem claim_C3_witness :
    _gclient_exec [] "DEPS"
        (.module [.assign 1 [Target.name 1 "x"] (.str 1 "1"),
                  .assign 2 [Target.name 2 "x"] (.str 2 "2")]) =
      .error (.assignOverride "x" "DEPS" 2) :=
  claim_C3_duplicate_assignment [] "DEPS" "x" 1 2 1 2
    (.str 1 "1") (.str 2 "2") (.str "1") (.str "2") rfl rfl

/-- Claim C4: boolean `or` and `and` accept exactly two operands — three or
more operands fail before anything is evaluated — and with two operands they
short-circuit: `or` returns the left value if truthy and otherwise evaluates
and returns the right, `and` the mirror image; concretely `"" or "y"` gives
`"y"`, `"x" or "y"` gives `"x"`, and a truthy (falsy) left operand makes
`or` (`and`) succeed even when the right operand would fail to evaluate. -/
theorem claim_C4_bool_two_operands :
    (∀ (gs : FuncTable) (fname : String) (expose : Bool) (env : Env)
        (ln : Nat) (a b c : Expr) (rest : List Expr),
      _convert gs fname expose (.boolOp ln .orOp (a :: b :: c :: rest)) env =
        .error (.invalidOrArity fname ln)) ∧
    (∀ (gs : FuncTable) (fname : String) (expose : Bool) (env : Env)
        (ln : Nat) (a b c : Expr) (rest : List Expr),
      _convert gs fname expose (.boolOp ln .andOp (a :: b :: c :: rest)) env =
        .error (.invalidAndArity fname ln)) ∧
    (∀ (gs : FuncTable) (fname : String) (expose : Bool) (env : Env)
        (ln : Nat) (l r : Expr),
      _convert gs fname expose (.boolOp ln .orOp [l, r]) env =
        match _convert gs fname expose l (updAllowed env) with
        | .error e => .error e
        | .ok lv =>
            if pyTruthy lv then .ok lv
            else _convert gs fname expose r (updAllowed env)) ∧
    (∀ (gs : FuncTable) (fname : String) (expose : Bool) (env : Env)
        (ln : Nat) (l r : Expr),
      _convert gs fname expose (.boolOp ln .andOp [l, r]) env =
        match _convert gs fname expose l (updAllowed env) with
        | .error e => .error e
        | .ok lv =>
            if pyTruthy lv then _convert gs fname expose r (updAllowed env)
            else .ok lv) ∧
    _gclient_eval [] "DEPS" false
        (.boolOp 1 .orOp [.str 1 "", .str 1 "y"]) = .ok (.str "y") ∧
    _gclient_eval [] "DEPS" false
        (.boolOp 1 .orOp [.str 1 "x", .str 1 "y"]) = .ok (.str "x") ∧
    _gclient_eval [] "DEPS" false
        (.boolOp 1 .orOp [.str 1 "x", .name 1 "zzz"]) = .ok (.str "x") ∧
    _gclient_eval [] "DEPS" false
        (.boolOp 1 .andOp [.str 1 "", .name 1 "zzz"]) = .ok (.str "") ∧
    _gclient_eval [] "DEPS" false
        (.boolOp 1 .andOp [.str 1 "x", .str 1 "y"]) = .ok (.str "y") := by
  refine ⟨fun _ _ _ _ _ _ _ _ _ => rfl, fun _ _ _ _ _ _ _ _ _ => rfl,
    ?_, ?_, rfl, rfl, rfl, rfl, rfl⟩
  · intro gs fname expose env ln l r
    cases hl : _convert gs fname expose l (updAllowed env) with
    | error e => simp [_convert, hl]
    | ok lv => simp [_convert, hl]
  · intro gs fname expose env ln l r
    cases hl : _convert gs fname expose l (updAllowed env) with
    | error e => simp [_convert, hl]
    | ok lv => simp [_convert, hl]

/-- Counterexample for C5 as stated: a call to a name absent from the
function table does fail, but the failure is a bare key-lookup error that
carries NO filename and NO source line, contradicting that every Evaluate
failure carries both. -/
theorem claim_C5_counterexample :
    _gclient_eval [] "DEPS" false
        (.call 3 (.name 3 "f") [] [] Option.none Option.none) =
      .error (.keyError "f") ∧
    Err.filenameAndLine (.keyError "f") = Option.none := ⟨rfl, rfl⟩

/-- Claim C5 (amended): a non-identifier callee, keyword arguments and
variadic arguments are hard failures; a call with the callee present in the
function table and successfully evaluated positional arguments returns the
result of applying the table entry to those argument values; a call to an
absent name fails with a bare key-lookup error. The failures the evaluator
raises itself carry filename and source line, while the key-lookup failure
carries neither. -/
theorem claim_C5_call_rules :
    (∀ (gs : FuncTable) (fname : String) (expose : Bool) (env : Env)
        (ln : Nat) (func : Expr) (args : List Expr)
        (kws : List (String × Expr)) (sa ka : Option Expr),
      func.isNameNode = false →
      _convert gs fname expose (.call ln func args kws sa ka) env =
        .error (.invalidCallNotName fname ln)) ∧
    (∀ (gs : FuncTable) (fname : String) (expose : Bool) (env : Env)
        (ln nln : Nat) (fid : String) (args : List Expr)
        (kw : String × Expr) (kws : List (String × Expr)) (sa ka : Option Expr),
      _convert gs fname expose
          (.call ln (.name nln fid) args (kw :: kws) sa ka) env =
        .error (.invalidCallArgs fname ln)) ∧
    (∀ (gs : FuncTable) (fname : String) (expose : Bool) (env : Env)
        (ln nln : Nat) (fid : String) (args : List Expr) (se : Expr)
        (ka : Option Expr),
      _convert gs fname expose
          (.call ln (.name nln fid) args [] (some se) ka) env =
        .error (.invalidCallArgs fname ln)) ∧
    (∀ (gs : FuncTable) (fname : String) (expose : Bool) (env : Env)
        (ln nln : Nat) (fid : String) (args : List Expr) (ke : Expr),
      _convert gs fname expose
          (.call ln (.name nln fid) args [] Option.none (some ke)) env =
        .error (.invalidCallArgs fname ln)) ∧
    (∀ (gs : FuncTable) (fname : String) (expose : Bool) (env : Env)
        (ln nln : Nat) (fid : String) (args : List Expr) (avs : List Value)
        (f : List Value → Value),
      _convertList gs fname expose args (updAllowed env) = .ok avs →
      ftLookup gs fid = some f →
      _convert gs fname expose
          (.call ln (.name nln fid) args [] Option.none Option.none) env =
        .ok (f avs)) ∧
    (∀ (gs : FuncTable) (fname : String) (expose : Bool) (env : Env)
        (ln nln : Nat) (fid : String) (args : List Expr) (avs : List Value),
      _convertList gs fname expose args (updAllowed env) = .ok avs →
      ftLookup gs fid = Option.none →
      _convert gs fname expose
          (.call ln (.name nln fid) args [] Option.none Option.none) env =
        .error (.keyError fid)) ∧
    _gclient_eval [("f", fun args => Value.list args)] "DEPS" false
        (.call 3 (.name 3 "f") [.str 3 "a", .str 3 "b"] []
          Option.none Option.none) =
      .ok (.list [.str "a", .str "b"]) ∧
    (∀ (f : String) (l : Nat),
      Err.filenameAndLine (.invalidCallNotName f l) = some (f, l)) ∧
    (∀ (f : String) (l : Nat),
      Err.filenameAndLine (.invalidCallArgs f l) = some (f, l)) ∧
    (∀ k : String, Err.filenameAndLine (.keyError k) = Option.none) := by
  refine ⟨?_, ?_, ?_, ?_, ?_, ?_, rfl, fun _ _ => rfl, fun _ _ => rfl,
    fun _ => rfl⟩
  · intro gs fname expose env ln func args kws sa ka h
    cases func <;> simp [Expr.isNameNode] at h ⊢ <;> rfl
  · intro gs fname expose env ln nln fid args kw kws sa ka
    rfl
  · intro gs fname expose env ln nln fid args se ka
    rfl
  · intro gs fname expose env ln nln fid args ke
    rfl
  · intro gs fname expose env ln nln fid args avs f hargs hlk
    simp [_convert, hargs, hlk]
  · intro gs fname expose env ln nln fid args avs hargs hlk
    simp [_convert, hargs, hlk]

/-- Witness for C5: the amended rules at concrete inputs — a string callee is
rejected with a located failure, `f("a", "b")` with `f` bound to the
list-packing function returns the packed argument list, and a call to `f`
over the empty table fails with the bare key error. -/
theorem claim_C5_witness :
    _convert [] "DEPS" false
        (.call 3 (.str 3 "g") [] [] Option.none Option.none) [] =
      .error (.invalidCallNotName "DEPS" 3) ∧
    _convert [("f", fun args => Value.list args)] "DEPS" false
        (.call 3 (.name 3 "f") [.str 3 "a", .str 3 "b"] []
          Option.none Option.none) [] =
      .ok (.list [.str "a", .str "b"]) ∧
    _convert [] "DEPS" false
        (.call 3 (.name 3 "f") [] [] Option.none Option.none) [] =
      .error (.keyError "f") := by
  refine ⟨claim_C5_call_rules.1 [] "DEPS" false [] 3 (.str 3 "g") [] []
    Option.none Option.none rfl, ?_, ?_⟩
  · exact claim_C5_call_rules.2.2.2.2.1 [("f", fun args => Value.list args)]
      "DEPS" false [] 3 3 "f" [.str 3 "a", .str 3 "b"] [.str "a", .str "b"]
      (fun args => Value.list args) rfl rfl
  · exact claim_C5_call_rules.2.2.2.2.2.1 [] "DEPS" false [] 3 3 "f" [] []
      rfl rfl

/-- Counterexample for C6 as stated: on the specification example — expected
scope mapping `deps` to a dict with `a` bound to `"1"`, actual manifest
binding it to `"2"` — the `CheckFailure` does carry the path, but its
expected/actual fields hold the two ENTIRE scopes, not the two leaf values
`"1"` and `"2"`. -/
theorem claim_C6_counterexample :
    Check (c6Content "2") "DEPS" [] c6Expected =
      .error (.checkFailure "[\"deps\"][\"a\"]" (.value c6Expected)
        (.value c6Actual2)) ∧
    CFItem.isStrValue (.value c6Expected) "1" = false := ⟨rfl, rfl⟩

/-- Claim C6 (amended): a matching comparison passes silently; a mismatch
reports the accumulated path; a dict key-set mismatch names both key sets;
but a list-length mismatch (its path wrapped in `len(...)`) and a scalar
mismatch name the entire expected and actual scopes rather than the two
lengths or the two leaf values. -/
theorem claim_C6_failure_reporting :
    Check (c6Content "1") "DEPS" [] c6Expected = .ok () ∧
    Check (c6Content "2") "DEPS" [] c6Expected =
      .error (.checkFailure "[\"deps\"][\"a\"]" (.value c6Expected)
        (.value c6Actual2)) ∧
    Check (.module []) "DEPS" [] c6Expected =
      .error (.checkFailure "" (.keySet [.str "deps"]) (.keySet [])) ∧
    Check c6ListContent "DEPS" [] c6ListExpected =
      .error (.checkFailure "len([\"include_rules\"])"
        (.value c6ListExpected) (.value c6ListActual)) :=
  ⟨rfl, rfl, rfl, rfl⟩

/-- Claim C7: the schema accepts a scope binding `deps` to a dict mapping a
name to a string, rejects the same scope with an int in place of the string,
rejects a scope holding an unknown top-level key, and accepts the empty
scope (every top-level key is optional). -/
theorem claim_C7_schema_validation :
    validateScope [("deps", .dict [(.str "a", .str "1")])] = true ∧
    validateScope [("deps", .dict [(.str "a", .int 1)])] = false ∧
    validateScope [("bogus", .int 1)] = false ∧
    validateScope [] = true := ⟨rfl, rfl, rfl, rfl⟩

/-- Claim C8: a module of zero statements yields the empty scope; an
expression statement, a conditional, a loop, a function definition and a
class definition are hard failures; so are a multi-target assignment and an
assignment to a destructuring, attribute or subscript target; and so is any
top-level node that is not a module. -/
theorem claim_C8_flat_assignment_sequence :
    _gclient_exec [] "DEPS" (.module []) = .ok [] ∧
    (∀ (gs : FuncTable) (fname : String) (ln : Nat) (e : Expr),
      _gclient_exec gs fname (.module [.exprStmt ln e]) =
        .error (.unexpectedNode fname ln)) ∧
    (∀ (gs : FuncTable) (fname : String) (ln : Nat),
      _gclient_exec gs fname (.module [.ifStmt ln]) =
        .error (.unexpectedNode fname ln)) ∧
    (∀ (gs : FuncTable) (fname : String) (ln : Nat),
      _gclient_exec gs fname (.module [.forStmt ln]) =
        .error (.unexpectedNode fname ln)) ∧
    (∀ (gs : FuncTable) (fname : String) (ln : Nat) (id : String),
      _gclient_exec gs fname (.module [.funcDef ln id]) =
        .error (.unexpectedNode fname ln)) ∧
    (∀ (gs : FuncTable) (fname : String) (ln : Nat) (id : String),
      _gclient_exec gs fname (.module [.classDef ln id]) =
        .error (.unexpectedNode fname ln)) ∧
    (∀ (gs : FuncTable) (fname : String) (ln : Nat) (t1 t2 : Target)
        (ts : List Target) (e : Expr),
      _gclient_exec gs fname (.module [.assign ln (t1 :: t2 :: ts) e]) =
        .error (.invalidAssignMulti fname ln)) ∧
    (∀ (gs : FuncTable) (fname : String) (ln tl : Nat) (e : Expr),
      _gclient_exec gs fname (.module [.assign ln [.tupleTgt tl] e]) =
        .error (.invalidAssignTarget fname ln)) ∧
    (∀ (gs : FuncTable) (fname : String) (ln tl : Nat) (e : Expr),
      _gclient_exec gs fname (.module [.assign ln [.attrTgt tl] e]) =
        .error (.invalidAssignTarget fname ln)) ∧
    (∀ (gs : FuncTable) (fname : String) (ln tl : Nat) (e : Expr),
      _gclient_exec gs fname (.module [.assign ln [.subscriptTgt tl] e]) =
        .error (.invalidAssignTarget fname ln)) ∧
    (∀ (gs : FuncTable) (fname : String) (e : Expr),
      _gclient_exec gs fname (.exprTop e) =
        .error (.unexpectedNode fname e.line)) ∧
    (∀ (gs : FuncTable) (fname : String) (e : Expr),
      _gclient_exec gs fname (.expression e) =
        .error (.unexpectedNode fname e.line)) := by
  refine ⟨rfl, ?_, ?_, ?_, ?_, ?_, ?_, ?_, ?_, ?_, ?_, ?_⟩
  all_goals intros
  all_goals rfl

/-- Claim C9: evaluation and execution are total — both are accepted by the
termination checker through structural recursion on the input tree, so on
every finite input tree each produces either a value/scope or a failure. -/
theorem claim_C9_termination :
    (∀ (gs : FuncTable) (fname : String) (expose : Bool) (node : Expr)
        (env : Env),
      (∃ v, _convert gs fname expose node env = .ok v) ∨
        ∃ e, _convert gs fname expose node env = .error e) ∧
    (∀ (gs : FuncTable) (fname : String) (inp : ExecInput),
      (∃ s, _gclient_exec gs fname inp = .ok s) ∨
        ∃ e, _gclient_exec gs fname inp = .error e) := by
  constructor
  · intro gs fname expose node env
    cases h : _convert gs fname expose node env with
    | ok v => exact Or.inl ⟨v, rfl⟩
    | error e => exact Or.inr ⟨e, rfl⟩
  · intro gs fname inp
    cases h : _gclient_exec gs fname inp with
    | ok s => exact Or.inl ⟨s, rfl⟩
    | error e => exact Or.inr ⟨e, rfl⟩

/-- Claim C10: duplicate keys inside one dict literal are not rejected: a
dict literal of string literals always evaluates to the `dictInsert` fold of
its pairs, in which a key that occurs more than once is bound to the value
of its LAST occurrence; and with exposure on, a pair between two occurrences
of a key sees the value of the earlier occurrence, as the concrete manifest
`vars = ` over pairs `("a", "1")`, `("b", a)`, `("a", "2")` shows: it yields
`b` bound to `"1"` and `a` bound to `"2"`. -/
theorem claim_C10_dict_duplicate_keys :
    (∀ (gs : FuncTable) (fname : String) (expose : Bool) (ln : Nat)
        (ps : List (String × String)) (env : Env),
      _convert gs fname expose
          (.dict ln (ps.map (fun p => (Expr.str ln p.1, Expr.str ln p.2))))
          env =
        .ok (.dict
          (ps.foldl (fun acc p => dictInsert acc (.str p.1) (.str p.2)) []))) ∧
    (∀ (ps : List (String × String)) (k : String),
      dictLookup
          (ps.foldl (fun acc p => dictInsert acc (.str p.1) (.str p.2)) [])
          (.str k) =
        ((ps.filter (fun p => p.1 == k)).getLast?).map
          (fun p => Value.str p.2)) ∧
    _gclient_exec [] "DEPS"
        (.module [.assign 1 [Target.name 1 "vars"]
          (.dict 1 [(.str 1 "a", .str 1 "1"), (.str 1 "b", .name 1 "a"),
                    (.str 1 "a", .str 1 "2")])]) =
      .ok [("vars", .dict [(.str "a", .str "2"), (.str "b", .str "1")])] := by
  refine ⟨convert_dict_literal, ?_, rfl⟩
  intro ps k
  rw [lookup_foldl_dictInsert]
  cases h : (ps.filter (fun p => p.1 == k)).getLast? with
  | none => simp [dictLookup]
  | some q => simp

end GclientEval
